import Mathlib

/-!
# Verification of the figma-deckgl-demo transformation interaction engine

Shallow embedding of the repository's transformation core over exact rational
arithmetic:

* JavaScript `number` values are modelled as `ℚ` (all claims under scrutiny are
  about exact geometric/algebraic relationships, not float rounding).
* An angle that the source only ever consumes through `Math.cos` / `Math.sin`
  is modelled by the pair of those two values (`Angle` below); negating the
  angle (`-rotationRad` in the source) becomes `Angle.neg`, using
  `cos (-t) = cos t`, `sin (-t) = -sin t`.
* `Math.atan2`-produced angles are measured in half-turns (1 = π radians
  = 180°), so the `atan2` codomain `(-π, π]` becomes `(-1, 1]` and the
  source's `* (180 / Math.PI)` becomes `* 180`.
* Screen-distance comparisons `Math.sqrt d2 <= t` (with `t ≥ 0`) are embedded
  as `d2 ≤ t^2`, avoiding square roots (`12² = 144`, `24² = 576`).
* Fallible projections (`canvasElement` may be `null`) return `Option`.
-/

namespace FigmaDeck

/-- A 2D point/vector, mirroring the `Vec` class of
`src/lib/utils/rotationAware.ts` and the `{x, y}` screen positions of
`src/utils/coordinates.ts`. -/
@[ext] structure Vec where
  x : ℚ
  y : ℚ
  deriving DecidableEq, Repr

/-- A rotation angle represented by its cosine and sine, the only two
projections of `rotationRad` the source ever computes. -/
structure Angle where
  c : ℚ
  s : ℚ
  deriving DecidableEq, Repr

/-- The angle `-θ`: the source's `.rot(-rotationRad)`. -/
def Angle.neg (a : Angle) : Angle := ⟨a.c, -a.s⟩

/-- `Vec.rot` from `src/lib/utils/rotationAware.ts`:
`(x cos − y sin, x sin + y cos)`. -/
def Vec.rot (v : Vec) (a : Angle) : Vec :=
  ⟨v.x * a.c - v.y * a.s, v.x * a.s + v.y * a.c⟩

/-- `Vec.add`. -/
def Vec.add (a b : Vec) : Vec := ⟨a.x + b.x, a.y + b.y⟩

/-- `Vec.sub`. -/
def Vec.sub (a b : Vec) : Vec := ⟨a.x - b.x, a.y - b.y⟩

/-- `Vec.rotWith point origin angle`: rotate `point` about `origin`. -/
def Vec.rotWith (p origin : Vec) (a : Angle) : Vec :=
  Vec.add ((Vec.sub p origin).rot a) origin

/-- An axis-aligned bounds record `{x, y, width, height}` (the
`originalBounds` snapshots and resize outputs of the source). -/
@[ext] structure Bounds where
  x : ℚ
  y : ℚ
  width : ℚ
  height : ℚ
  deriving DecidableEq, Repr

/-- The center of a bounds rectangle, `(x + width/2, y + height/2)`. -/
def boundsCenter (b : Bounds) : Vec := ⟨b.x + b.width / 2, b.y + b.height / 2⟩

/-- A transformable layer object (`LayerObject` / `TransformableObject`);
`rotation` is carried as its cosine/sine pair. -/
structure LayerObject where
  id : String
  x : ℚ
  y : ℚ
  width : ℚ
  height : ℚ
  rotation : Angle
  selected : Bool
  deriving DecidableEq, Repr

/-- The bounds of a layer object. -/
def LayerObject.bounds (l : LayerObject) : Bounds := ⟨l.x, l.y, l.width, l.height⟩

/-- The DeckGL view state consumed by `worldToScreen`; `zoom` is kept integral
(the demos use integral zoom levels) so that `2^(zoom-8)` is exact. -/
structure ViewState where
  longitude : ℚ
  latitude : ℚ
  zoom : ℤ
  deriving DecidableEq, Repr

/-- The projection scale of `worldToScreen` in `src/utils/coordinates.ts`:
`Math.pow(2, viewState.zoom - 8) * 400`. -/
def deckScale (zoom : ℤ) : ℚ := 2 ^ (zoom - 8) * 400

/-- `worldToScreen` from `src/utils/coordinates.ts`: returns `null` when no
canvas element is bound, else
`(w/2 + (wx - longitude) * scale, h/2 - (wy - latitude) * scale)`
(the minus on `y` is the world-up / screen-down flip). The canvas is modelled
by its bounding rectangle (width, height). -/
def worldToScreen (p : Vec) (vs : ViewState) (canvas : Option (ℚ × ℚ)) :
    Option Vec :=
  match canvas with
  | none => none
  | some (cw, chh) =>
      some ⟨cw / 2 + (p.x - vs.longitude) * deckScale vs.zoom,
            chh / 2 - (p.y - vs.latitude) * deckScale vs.zoom⟩

/-- The inline point rotation of `getRotatedPolygon`
(`dx cos − dy sin + cx, dx sin + dy cos + cy`). -/
def rotAround (p c : Vec) (a : Angle) : Vec :=
  ⟨(p.x - c.x) * a.c - (p.y - c.y) * a.s + c.x,
   (p.x - c.x) * a.s + (p.y - c.y) * a.c + c.y⟩

/-- `getRotatedPolygon` from `src/utils/coordinates.ts`: the four axis-aligned
corners `[(x,y), (x+w,y), (x+w,y+h), (x,y+h)]` rotated about the center. -/
def getRotatedPolygon (l : LayerObject) : List Vec :=
  let cen : Vec := ⟨l.x + l.width / 2, l.y + l.height / 2⟩
  ([⟨l.x, l.y⟩, ⟨l.x + l.width, l.y⟩,
    ⟨l.x + l.width, l.y + l.height⟩, ⟨l.x, l.y + l.height⟩] : List Vec).map
    (fun p => rotAround p cen l.rotation)

/-- Squared euclidean distance; the source computes
`Math.sqrt (dx*dx + dy*dy)` and compares it with a non-negative tolerance, so
all comparisons are embedded on the squares. -/
def distSq (a b : Vec) : ℚ := (a.x - b.x) ^ 2 + (a.y - b.y) ^ 2

/-- `distanceToLineSegment` from `src/utils/coordinates.ts`, returning the
squared distance (the source returns the square root and only ever compares
it with non-negative tolerances). -/
def distToSegSq (p a b : Vec) : ℚ :=
  let A := p.x - a.x
  let B := p.y - a.y
  let C := b.x - a.x
  let D := b.y - a.y
  let dot := A * C + B * D
  let lenSq := C * C + D * D
  let param : ℚ := if lenSq ≠ 0 then dot / lenSq else -1
  let q : Vec :=
    if param < 0 then a
    else if 1 < param then b
    else ⟨a.x + param * C, a.y + param * D⟩
  (p.x - q.x) ^ 2 + (p.y - q.y) ^ 2

end FigmaDeck

namespace FigmaDeck

/-- A classified hover zone `{type, handle, zoneType}` (strings in the
source). -/
structure HoverZone where
  type : String
  handle : String
  zoneType : String
  deriving DecidableEq, Repr

/-- The corner/edge scan of `getHoverZone` in `src/utils/hoverDetection.ts`,
with the two `for` loops over the literal four-element arrays unrolled.
Arguments are the four projected corners in source order
(`screenCorners[0..3]`, destructured as `topLeft, topRight, bottomRight,
bottomLeft` there) and the projected mouse position. Thresholds `12`/`24`
pixels appear squared (`144`/`576`). Corner names follow the literal table of
that file: index 0 ↦ `nw`, 1 ↦ `ne`, 2 ↦ `se`, 3 ↦ `sw`; edges
`n = 0→1`, `e = 1→2`, `s = 2→3`, `w = 3→0`. -/
def hoverScan (tl tr br bl m : Vec) : Option HoverZone :=
  if distSq m tl ≤ 144 then some ⟨"resize", "nw", "resize"⟩
  else if distSq m tr ≤ 144 then some ⟨"resize", "ne", "resize"⟩
  else if distSq m br ≤ 144 then some ⟨"resize", "se", "resize"⟩
  else if distSq m bl ≤ 144 then some ⟨"resize", "sw", "resize"⟩
  else if distToSegSq m tl tr ≤ 144 then some ⟨"resize", "n", "resize"⟩
  else if distToSegSq m tr br ≤ 144 then some ⟨"resize", "e", "resize"⟩
  else if distToSegSq m br bl ≤ 144 then some ⟨"resize", "s", "resize"⟩
  else if distToSegSq m bl tl ≤ 144 then some ⟨"resize", "w", "resize"⟩
  else if 144 < distSq m tl ∧ distSq m tl ≤ 576 then some ⟨"rotate", "nw", "rotate"⟩
  else if 144 < distSq m tr ∧ distSq m tr ≤ 576 then some ⟨"rotate", "ne", "rotate"⟩
  else if 144 < distSq m br ∧ distSq m br ≤ 576 then some ⟨"rotate", "se", "rotate"⟩
  else if 144 < distSq m bl ∧ distSq m bl ≤ 576 then some ⟨"rotate", "sw", "rotate"⟩
  else none

/-- `getHoverZone` from `src/utils/hoverDetection.ts`: `null` when the layer
is unselected; corners are projected to screen space (dropping failed
projections exactly as `.filter(Boolean)` does) and the scan only runs when
all four projections and the mouse projection succeed. -/
def getHoverZone (layer : LayerObject) (worldX worldY : ℚ) (vs : ViewState)
    (canvas : Option (ℚ × ℚ)) : Option HoverZone :=
  if !layer.selected then none
  else
    let screenCorners :=
      (getRotatedPolygon layer).filterMap (fun p => worldToScreen p vs canvas)
    match screenCorners, worldToScreen ⟨worldX, worldY⟩ vs canvas with
    | [tl, tr, br, bl], some m => hoverScan tl tr br bl m
    | _, _ => none

/-- The corner/edge scan of the `getHoverZone` callback in the demo component
(`ResizableLayerDemo` revision, part_001 lines 876–917): identical to
`hoverScan` except that the corner-name table is flipped for the
world-up/screen-down Y convention (index 0 ↦ `sw`, 1 ↦ `se`, 2 ↦ `ne`,
3 ↦ `nw`), as the project notes (part_000) prescribe. Edge names are
unchanged there. -/
def hoverScanDemo (tl tr br bl m : Vec) : Option HoverZone :=
  if distSq m tl ≤ 144 then some ⟨"resize", "sw", "resize"⟩
  else if distSq m tr ≤ 144 then some ⟨"resize", "se", "resize"⟩
  else if distSq m br ≤ 144 then some ⟨"resize", "ne", "resize"⟩
  else if distSq m bl ≤ 144 then some ⟨"resize", "nw", "resize"⟩
  else if distToSegSq m tl tr ≤ 144 then some ⟨"resize", "n", "resize"⟩
  else if distToSegSq m tr br ≤ 144 then some ⟨"resize", "e", "resize"⟩
  else if distToSegSq m br bl ≤ 144 then some ⟨"resize", "s", "resize"⟩
  else if distToSegSq m bl tl ≤ 144 then some ⟨"resize", "w", "resize"⟩
  else if 144 < distSq m tl ∧ distSq m tl ≤ 576 then some ⟨"rotate", "sw", "rotate"⟩
  else if 144 < distSq m tr ∧ distSq m tr ≤ 576 then some ⟨"rotate", "se", "rotate"⟩
  else if 144 < distSq m br ∧ distSq m br ≤ 576 then some ⟨"rotate", "ne", "rotate"⟩
  else if 144 < distSq m bl ∧ distSq m bl ≤ 576 then some ⟨"rotate", "nw", "rotate"⟩
  else none

/-- The demo revision of the zone classifier (part_001), differing from
`getHoverZone` only in the corner-name table. -/
def getHoverZoneDemo (layer : LayerObject) (worldX worldY : ℚ) (vs : ViewState)
    (canvas : Option (ℚ × ℚ)) : Option HoverZone :=
  if !layer.selected then none
  else
    let screenCorners :=
      (getRotatedPolygon layer).filterMap (fun p => worldToScreen p vs canvas)
    match screenCorners, worldToScreen ⟨worldX, worldY⟩ vs canvas with
    | [tl, tr, br, bl], some m => hoverScanDemo tl tr br bl m
    | _, _ => none

end FigmaDeck

namespace FigmaDeck

/-- `getScaleOriginPoint` from the hook revision in part_002 (identical to
`getScaleOrigin` in `src/lib/utils/rotationAware.ts`): the bounds
corner/edge-midpoint opposite the dragged handle, falling back to the center
for unknown handles. -/
def getScaleOriginPoint (handle : String) (b : Bounds) : Vec :=
  if handle = "nw" then ⟨b.x + b.width, b.y + b.height⟩
  else if handle = "ne" then ⟨b.x, b.y + b.height⟩
  else if handle = "sw" then ⟨b.x + b.width, b.y⟩
  else if handle = "se" then ⟨b.x, b.y⟩
  else if handle = "n" then ⟨b.x + b.width / 2, b.y + b.height⟩
  else if handle = "s" then ⟨b.x + b.width / 2, b.y⟩
  else if handle = "w" then ⟨b.x + b.width, b.y + b.height / 2⟩
  else if handle = "e" then ⟨b.x, b.y + b.height / 2⟩
  else ⟨b.x + b.width / 2, b.y + b.height / 2⟩

/-- `applyScaleToObject` from the hook revision in part_002 (lines 489–522):
new size is the old size scaled by the absolute scale factors; the new center
is the scale origin plus the origin→center offset taken in local (unrotated)
space, scaled per axis, and rotated back to world space. -/
def applyScaleToObject (bounds : Bounds) (scaleX scaleY : ℚ)
    (scaleOriginWorld : Vec) (rot : Angle) : Bounds :=
  let newWidth := bounds.width * |scaleX|
  let newHeight := bounds.height * |scaleY|
  let oldCenter : Vec := ⟨bounds.x + bounds.width / 2, bounds.y + bounds.height / 2⟩
  let centerOffset := (Vec.sub oldCenter scaleOriginWorld).rot rot.neg
  let scaledOffset : Vec := ⟨centerOffset.x * scaleX, centerOffset.y * scaleY⟩
  let newCenter := Vec.add scaleOriginWorld (scaledOffset.rot rot)
  ⟨newCenter.x - newWidth / 2, newCenter.y - newHeight / 2, newWidth, newHeight⟩

/-- The guarded per-axis scale factor of the rotation-aware resize branch
(part_002 lines 297–302): the ratio of local current to local start
component, substituted with `1` when the start component is `0`. The source's
follow-up `Number.isFinite` re-check is vacuous over `ℚ`, where every value
is finite and the guarded quotient of finite values is finite. -/
def rawScale (cur sta : ℚ) : ℚ := if sta ≠ 0 then cur / sta else 1

/-- The resize branch of `handleDrag` in the hook revision of part_002
(lines 277–343): tldraw-style rotation-aware anchored scaling. Arguments:
dragged handle, `originalBounds` snapshot, object rotation, current pointer,
session start pointer, shift (aspect-lock) state and the configured minimum
sizes. -/
def resizeRA (handle : String) (orig : Bounds) (rot : Angle)
    (cx cy sx0 sy0 : ℚ) (shift : Bool) (minW minH : ℚ) : Bounds :=
  let scaleOriginLocal := getScaleOriginPoint handle orig
  let objectCenter : Vec := ⟨orig.x + orig.width / 2, orig.y + orig.height / 2⟩
  let scaleOriginWorld := Vec.rotWith scaleOriginLocal objectCenter rot
  let currentDistance := (Vec.sub ⟨cx, cy⟩ scaleOriginWorld).rot rot.neg
  let startDistance := (Vec.sub ⟨sx0, sy0⟩ scaleOriginWorld).rot rot.neg
  let scaleX := rawScale currentDistance.x startDistance.x
  let scaleY := rawScale currentDistance.y startDistance.y
  let isXLocked : Bool := handle == "n" || handle == "s"
  let isYLocked : Bool := handle == "w" || handle == "e"
  let scaleX := if isXLocked then 1 else scaleX
  let scaleY := if isYLocked then 1 else scaleY
  let sxy : ℚ × ℚ :=
    if shift then
      if isYLocked then (scaleX, |scaleX|)
      else if isXLocked then (|scaleY|, scaleY)
      else if |scaleY| < |scaleX| then
        (scaleX, |scaleX| * (if scaleY < 0 then -1 else 1))
      else
        (|scaleY| * (if scaleX < 0 then -1 else 1), scaleY)
    else (scaleX, scaleY)
  let minScaleX := minW / orig.width
  let minScaleY := minH / orig.height
  let scaleX := if |sxy.1| < minScaleX then minScaleX * (if sxy.1 < 0 then -1 else 1) else sxy.1
  let scaleY := if |sxy.2| < minScaleY then minScaleY * (if sxy.2 < 0 then -1 else 1) else sxy.2
  applyScaleToObject orig scaleX scaleY scaleOriginWorld rot

/-- JavaScript `handle.includes(c)` for a single-character needle, via the
string's character list (kept kernel-reducible for concrete evaluation). -/
def strHas (h : String) (c : Char) : Bool := h.data.contains c

/-- The axis-aligned resize branch of `handleDrag` in
`src/lib/hooks/useTransformationFrames.ts` (lines 271–327): per-handle
coordinate updates on a copy of the target object, optional aspect-ratio
constraint under shift (skipped when the stored ratio is `0`, which is falsy
in the source), then the min-size clamp. -/
def resizeAA (handle : String) (orig tgt : Bounds) (cx cy : ℚ) (shift : Bool)
    (origAspect : Option ℚ) (minW minH : ℚ) : Bounds :=
  let nl := tgt
  let nl :=
    if handle = "s" then { nl with y := orig.y, height := |cy - orig.y| }
    else if handle = "n" then
      { nl with y := cy, height := |orig.y + orig.height - cy| }
    else if handle = "w" then
      { nl with width := |orig.x + orig.width - cx|,
                x := min cx (orig.x + orig.width) }
    else if handle = "e" then { nl with x := orig.x, width := |cx - orig.x| }
    else
      let nl :=
        if strHas handle 'n' then
          { nl with y := cy, height := |orig.y + orig.height - cy| }
        else if strHas handle 's' then
          { nl with y := orig.y, height := |cy - orig.y| }
        else nl
      if strHas handle 'w' then
        { nl with width := |orig.x + orig.width - cx|,
                  x := min cx (orig.x + orig.width) }
      else if strHas handle 'e' then
        { nl with x := orig.x, width := |cx - orig.x| }
      else nl
  let nl :=
    if shift then
      match origAspect with
      | some ar =>
          if ar = 0 then nl
          else if strHas handle 'w' || strHas handle 'e' then
            { nl with height := nl.width / ar }
          else if strHas handle 'n' || strHas handle 's' then
            { nl with width := nl.height * ar }
          else nl
      | none => nl
    else nl
  { nl with width := max minW |nl.width|, height := max minH nl.height }

end FigmaDeck

namespace FigmaDeck

/-- The first `while` loop of the rotate-delta normalization
(`while (angleDiff > Math.PI) angleDiff -= 2 * Math.PI;`), in half-turn
units (π = 1, 2π = 2). -/
def wrapDown (d : ℚ) : ℚ :=
  if h : 1 < d then wrapDown (d - 2) else d
termination_by (⌈d⌉).toNat
decreasing_by
  have h2 : (2 : ℤ) ≤ ⌈d⌉ := by
    have := (Int.add_one_le_ceil_iff (z := 1) (a := d)).mpr (by exact_mod_cast h)
    omega
  have h3 : ⌈d - (2 : ℚ)⌉ = ⌈d⌉ - 2 := by
    have := Int.ceil_sub_int d (2 : ℤ)
    push_cast at this
    exact_mod_cast this
  simp only [h3]
  omega

/-- The second `while` loop
(`while (angleDiff < -Math.PI) angleDiff += 2 * Math.PI;`), half-turn
units. -/
def wrapUp (d : ℚ) : ℚ :=
  if h : d < -1 then wrapUp (d + 2) else d
termination_by (-⌊d⌋).toNat
decreasing_by
  have h2 : ⌊d⌋ ≤ -2 := by
    have : ⌊d⌋ < -1 := Int.floor_lt.mpr (by exact_mod_cast h)
    omega
  have h3 : ⌊d + (2 : ℚ)⌋ = ⌊d⌋ + 2 := by
    have := Int.floor_add_int d (2 : ℤ)
    push_cast at this
    exact_mod_cast this
  simp only [h3]
  omega

/-- The rotate-branch delta normalization of `handleDrag`
(`src/lib/hooks/useTransformationFrames.ts` lines 246–248): both `while`
loops in source order, in half-turn units. -/
def normAngleDiff (d : ℚ) : ℚ := wrapUp (wrapDown d)

/-- Truncating division used by the JavaScript `%` operator:
`v % m = v - m * trunc(v / m)` (rounds the quotient toward zero). -/
def jsTrunc (q : ℚ) : ℤ := if 0 ≤ q then ⌊q⌋ else ⌈q⌉

/-- The JavaScript remainder `v % m`. -/
def jsRem (v m : ℚ) : ℚ := v - m * (jsTrunc (v / m) : ℚ)

/-- `((newRotation % 360) + 360) % 360` (line 252). -/
def norm360 (v : ℚ) : ℚ := jsRem (jsRem v 360 + 360) 360

/-- `Math.round`: round half away from negative infinity, `⌊q + 1/2⌋`. -/
def jsRound (q : ℚ) : ℤ := ⌊q + 1 / 2⌋

/-- The full rotate branch of `handleDrag`
(`src/lib/hooks/useTransformationFrames.ts` lines 239–260, identical in the
part_002 revision), producing the emitted rotation value. Angles are in
half-turn units, so `angleDiff * (180 / Math.PI)` becomes `* 180`. Under the
shift snap modifier the result is rounded to a multiple of `snap` and reset
to `0` when it reaches `360`. -/
def rotateNewRotation (startRot currentAngle startAngle : ℚ) (shift : Bool)
    (snap : ℚ) : ℚ :=
  let angleDiff := normAngleDiff (currentAngle - startAngle)
  let rotationChange := angleDiff * 180
  let r := norm360 (startRot + rotationChange)
  if shift then
    let r2 := (jsRound (r / snap) : ℚ) * snap
    if 360 ≤ r2 then 0 else r2
  else r

/-- The `TransformationState` drag session
(`src/lib/types`): `origAspect` is the source's stored original aspect
ratio field. -/
structure DraggingState where
  startX : ℚ
  startY : ℚ
  type : String
  handle : Option String
  startRotation : Option ℚ
  origAspect : Option ℚ
  originalBounds : Option Bounds
  deriving DecidableEq, Repr

/-- The configuration fields consumed by `handleDrag` (the hook merges user
config over `DEFAULT_CONFIG`, so all fields are present). -/
structure HookConfig where
  enableResize : Bool
  minWidth : ℚ
  minHeight : ℚ
  snapRotation : ℚ
  deriving DecidableEq, Repr

/-- A `Partial<TransformableObject>` change set as emitted through
`onTransformUpdate`; `none` marks an absent field. -/
structure PartialChanges where
  x : Option ℚ
  y : Option ℚ
  width : Option ℚ
  height : Option ℚ
  rotation : Option ℚ
  deriving DecidableEq, Repr

/-- The empty change set `{}`. -/
def emptyChanges : PartialChanges := ⟨none, none, none, none, none⟩

/-- The change-set computation of `handleDrag` in
`src/lib/hooks/useTransformationFrames.ts` (lines 229–330), for one
drag-update on a resolved target object. `atn y x` abstracts `Math.atan2`
(half-turn units); every claim proved below holds for all possible `atn`.
Returns `none` when no `onTransformUpdate` call happens (the
`if (!orig) return;` early exit), `some changes` otherwise. -/
def dragChangesAA (atn : ℚ → ℚ → ℚ) (d : DraggingState) (tgt : LayerObject)
    (cx cy : ℚ) (shift : Bool) (cfg : HookConfig) : Option PartialChanges :=
  if d.type == "move" then
    some ⟨some (tgt.x + (cx - d.startX)), some (tgt.y + (cy - d.startY)),
          none, none, none⟩
  else if d.type == "rotate" then
    let centerX := tgt.x + tgt.width / 2
    let centerY := tgt.y + tgt.height / 2
    let currentAngle := atn (cy - centerY) (cx - centerX)
    let startAngle := atn (d.startY - centerY) (d.startX - centerX)
    some ⟨none, none, none, none,
      some (rotateNewRotation (d.startRotation.getD 0) currentAngle startAngle
        shift cfg.snapRotation)⟩
  else if d.type == "resize" && d.handle.isSome && cfg.enableResize then
    match d.handle, d.originalBounds with
    | some h, some orig =>
        let nb := resizeAA h orig tgt.bounds cx cy shift d.origAspect
          cfg.minWidth cfg.minHeight
        some ⟨some nb.x, some nb.y, some nb.width, some nb.height, none⟩
    | _, _ => none
  else some emptyChanges

/-- The change-set computation of `handleDrag` in the part_002 hook revision
(lines 218–357): identical to `dragChangesAA` except that the resize branch
is the rotation-aware `resizeRA` (using the target object's rotation). -/
def dragChangesRA (atn : ℚ → ℚ → ℚ) (d : DraggingState) (tgt : LayerObject)
    (cx cy : ℚ) (shift : Bool) (cfg : HookConfig) : Option PartialChanges :=
  if d.type == "move" then
    some ⟨some (tgt.x + (cx - d.startX)), some (tgt.y + (cy - d.startY)),
          none, none, none⟩
  else if d.type == "rotate" then
    let centerX := tgt.x + tgt.width / 2
    let centerY := tgt.y + tgt.height / 2
    let currentAngle := atn (cy - centerY) (cx - centerX)
    let startAngle := atn (d.startY - centerY) (d.startX - centerX)
    some ⟨none, none, none, none,
      some (rotateNewRotation (d.startRotation.getD 0) currentAngle startAngle
        shift cfg.snapRotation)⟩
  else if d.type == "resize" && d.handle.isSome && cfg.enableResize then
    match d.handle, d.originalBounds with
    | some h, some orig =>
        let nb := resizeRA h orig tgt.rotation cx cy d.startX d.startY shift
          cfg.minWidth cfg.minHeight
        some ⟨some nb.x, some nb.y, some nb.width, some nb.height, none⟩
    | _, _ => none
  else some emptyChanges

end FigmaDeck

namespace FigmaDeck

/-- Debug-zone layer data `{polygon, layerId, zoneType}`. -/
structure ZoneData where
  polygon : List Vec
  layerId : String
  zoneType : String
  deriving DecidableEq, Repr

/-- The generator configuration fields of
`src/lib/utils/dataGeneration.ts` (a `Partial<TransformationConfig>`). -/
structure GenConfig where
  resizeZoneDistance : Option ℚ
  rotateZoneDistance : Option ℚ
  enableResize : Option Bool
  enableRotate : Option Bool
  deriving DecidableEq, Repr

/-- JavaScript `v || d` on an optional number: the default wins when the
value is missing or `0` (zero is falsy). -/
def jsOr (v : Option ℚ) (d : ℚ) : ℚ :=
  match v with
  | none => d
  | some x => if x = 0 then d else x

/-- `generateResizeZoneData` from `src/lib/utils/dataGeneration.ts`
(lines 8–63): for each selected object, the axis-aligned bounds grown on
every side by `resizeDistance / (2^(zoom-8) * 400)` world units, rotated
about the grown rectangle's center. Empty when no canvas is bound or
`enableResize === false`. -/
def generateResizeZoneData (objects : List LayerObject) (vs : ViewState)
    (canvas : Option (ℚ × ℚ)) (cfg : GenConfig) : List ZoneData :=
  match canvas with
  | none => []
  | some _ =>
      if cfg.enableResize == some false then []
      else
        let rd := jsOr cfg.resizeZoneDistance 12
        (objects.filter (fun o => o.selected)).map (fun obj =>
          let bufferWorld := rd / deckScale vs.zoom
          let ex : Bounds := ⟨obj.x - bufferWorld, obj.y - bufferWorld,
            obj.width + 2 * bufferWorld, obj.height + 2 * bufferWorld⟩
          let cen : Vec := ⟨ex.x + ex.width / 2, ex.y + ex.height / 2⟩
          let corners : List Vec := [⟨ex.x, ex.y⟩, ⟨ex.x + ex.width, ex.y⟩,
            ⟨ex.x + ex.width, ex.y + ex.height⟩, ⟨ex.x, ex.y + ex.height⟩]
          ⟨corners.map (fun p => rotAround p cen obj.rotation), obj.id, "resize"⟩)

/-- `generateRotateZoneData` from `src/lib/utils/dataGeneration.ts`
(lines 68–123): as `generateResizeZoneData` with the rotate tolerance
(default 24) and the `enableRotate` gate. -/
def generateRotateZoneData (objects : List LayerObject) (vs : ViewState)
    (canvas : Option (ℚ × ℚ)) (cfg : GenConfig) : List ZoneData :=
  match canvas with
  | none => []
  | some _ =>
      if cfg.enableRotate == some false then []
      else
        let rd := jsOr cfg.rotateZoneDistance 24
        (objects.filter (fun o => o.selected)).map (fun obj =>
          let bufferWorld := rd / deckScale vs.zoom
          let ex : Bounds := ⟨obj.x - bufferWorld, obj.y - bufferWorld,
            obj.width + 2 * bufferWorld, obj.height + 2 * bufferWorld⟩
          let cen : Vec := ⟨ex.x + ex.width / 2, ex.y + ex.height / 2⟩
          let corners : List Vec := [⟨ex.x, ex.y⟩, ⟨ex.x + ex.width, ex.y⟩,
            ⟨ex.x + ex.width, ex.y + ex.height⟩, ⟨ex.x, ex.y + ex.height⟩]
          ⟨corners.map (fun p => rotAround p cen obj.rotation), obj.id, "rotate"⟩)

/-- `generateResizeZoneData` from the part_003 revision of the library data
generator (lines 8–63 there): identical to the checked-in
`src/lib/utils/dataGeneration.ts` version except that the world buffer is
`resizeDistance / 2^zoom` (`pixelsPerCommonUnit = Math.pow(2, viewState.zoom)`)
instead of `resizeDistance / (2^(zoom-8) * 400)`. -/
def generateResizeZoneData003 (objects : List LayerObject) (vs : ViewState)
    (canvas : Option (ℚ × ℚ)) (cfg : GenConfig) : List ZoneData :=
  match canvas with
  | none => []
  | some _ =>
      if cfg.enableResize == some false then []
      else
        let rd := jsOr cfg.resizeZoneDistance 12
        (objects.filter (fun o => o.selected)).map (fun obj =>
          let bufferWorld := rd / (2 : ℚ) ^ vs.zoom
          let ex : Bounds := ⟨obj.x - bufferWorld, obj.y - bufferWorld,
            obj.width + 2 * bufferWorld, obj.height + 2 * bufferWorld⟩
          let cen : Vec := ⟨ex.x + ex.width / 2, ex.y + ex.height / 2⟩
          let corners : List Vec := [⟨ex.x, ex.y⟩, ⟨ex.x + ex.width, ex.y⟩,
            ⟨ex.x + ex.width, ex.y + ex.height⟩, ⟨ex.x, ex.y + ex.height⟩]
          ⟨corners.map (fun p => rotAround p cen obj.rotation), obj.id, "resize"⟩)

/-- Written from the spec (§4.6(c) with §4.1): the debug zone polygon is "the
rotated rect expanded by the corresponding pixel tolerance converted to world
units" (`buffer-in-world-units = pixelTolerance / currentScale`): the
object's rectangle grown by `buffer` on each side, rotated by the object's
rotation about the object's center. -/
def specExpandedZonePolygon (obj : LayerObject) (buffer : ℚ) : List Vec :=
  let cen : Vec := ⟨obj.x + obj.width / 2, obj.y + obj.height / 2⟩
  ([⟨obj.x - buffer, obj.y - buffer⟩,
    ⟨obj.x + obj.width + buffer, obj.y - buffer⟩,
    ⟨obj.x + obj.width + buffer, obj.y + obj.height + buffer⟩,
    ⟨obj.x - buffer, obj.y + obj.height + buffer⟩] : List Vec).map
    (fun p => rotAround p cen obj.rotation)

end FigmaDeck

namespace FigmaDeck

/-- The comparison `Math.sqrt d2 <= t` for a configurable tolerance `t`,
embedded without square roots: for `0 ≤ d2` it is equivalent to
`0 ≤ t ∧ d2 ≤ t^2`. -/
def sqrtLE (d2 t : ℚ) : Prop := 0 ≤ t ∧ d2 ≤ t ^ 2

instance (d2 t : ℚ) : Decidable (sqrtLE d2 t) := And.decidable

/-- `getHoverZone` of the library build, staged at the tail of
`src/lib/utils/cursor.ts` (lines 437–543): the config-aware classifier. It
returns `null` for an unselected object; tolerances are
`config.resizeZoneDistance || 12` and `config.rotateZoneDistance || 24`; the
corner-then-edge resize scans run only when `config.enableResize !== false`
and the corner rotate-band scan only when `config.enableRotate !== false`;
corners keep the same table as `src/utils/hoverDetection.ts`
(index 0 ↦ `nw`, 1 ↦ `ne`, 2 ↦ `se`, 3 ↦ `sw`; edges `n = 0→1`, `e = 1→2`,
`s = 2→3`, `w = 3→0`). The `for` loops over the literal arrays are unrolled
and the square-root comparisons appear as `sqrtLE` on squared distances. -/
def getHoverZoneLib (object : LayerObject) (worldX worldY : ℚ)
    (vs : ViewState) (canvas : Option (ℚ × ℚ)) (cfg : GenConfig) :
    Option HoverZone :=
  if !object.selected then none
  else
    let rd := jsOr cfg.resizeZoneDistance 12
    let rot := jsOr cfg.rotateZoneDistance 24
    let screenCorners :=
      (getRotatedPolygon object).filterMap (fun p => worldToScreen p vs canvas)
    match screenCorners, worldToScreen ⟨worldX, worldY⟩ vs canvas with
    | [tl, tr, br, bl], some m =>
        let resizeResult : Option HoverZone :=
          if cfg.enableResize == some false then none
          else if sqrtLE (distSq m tl) rd then some ⟨"resize", "nw", "resize"⟩
          else if sqrtLE (distSq m tr) rd then some ⟨"resize", "ne", "resize"⟩
          else if sqrtLE (distSq m br) rd then some ⟨"resize", "se", "resize"⟩
          else if sqrtLE (distSq m bl) rd then some ⟨"resize", "sw", "resize"⟩
          else if sqrtLE (distToSegSq m tl tr) rd then some ⟨"resize", "n", "resize"⟩
          else if sqrtLE (distToSegSq m tr br) rd then some ⟨"resize", "e", "resize"⟩
          else if sqrtLE (distToSegSq m br bl) rd then some ⟨"resize", "s", "resize"⟩
          else if sqrtLE (distToSegSq m bl tl) rd then some ⟨"resize", "w", "resize"⟩
          else none
        match resizeResult with
        | some z => some z
        | none =>
            if cfg.enableRotate == some false then none
            else if ¬sqrtLE (distSq m tl) rd ∧ sqrtLE (distSq m tl) rot then
              some ⟨"rotate", "nw", "rotate"⟩
            else if ¬sqrtLE (distSq m tr) rd ∧ sqrtLE (distSq m tr) rot then
              some ⟨"rotate", "ne", "rotate"⟩
            else if ¬sqrtLE (distSq m br) rd ∧ sqrtLE (distSq m br) rot then
              some ⟨"rotate", "se", "rotate"⟩
            else if ¬sqrtLE (distSq m bl) rd ∧ sqrtLE (distSq m bl) rot then
              some ⟨"rotate", "sw", "rotate"⟩
            else none
    | _, _ => none

end FigmaDeck

namespace FigmaDeck

/-- The screen point `worldToScreen` produces when a canvas is bound (the
`some` payload), named for use in statements. -/
def projPoint (vs : ViewState) (cw chh : ℚ) (p : Vec) : Vec :=
  ⟨cw / 2 + (p.x - vs.longitude) * deckScale vs.zoom,
   chh / 2 - (p.y - vs.latitude) * deckScale vs.zoom⟩

end FigmaDeck

namespace FigmaDeck

/-- Rebuilding a vector from its components is the identity. -/
lemma vec_eta (v : Vec) : (⟨v.x, v.y⟩ : Vec) = v := rfl

/-- Subtracting a vector from itself gives the zero vector. -/
lemma vec_sub_self (v : Vec) : Vec.sub v v = ⟨0, 0⟩ := by
  simp [Vec.sub]

/-- Rotating the zero vector gives the zero vector. -/
lemma vec_zero_rot (a : Angle) : Vec.rot ⟨0, 0⟩ a = ⟨0, 0⟩ := by
  simp [Vec.rot]

/-- The guarded scale factor is `1` on a zero start component. -/
lemma rawScale_zero (c : ℚ) : rawScale c 0 = 1 := by
  simp [rawScale]

/-- For a unit cosine/sine pair, rotating by `-θ` and then by `θ` is the
identity. -/
lemma rot_neg_rot (a : Angle) (hu : a.c ^ 2 + a.s ^ 2 = 1) (v : Vec) :
    (v.rot a.neg).rot a = v := by
  apply Vec.ext <;> simp [Vec.rot, Angle.neg]
  · linear_combination v.x * hu
  · linear_combination v.y * hu

/-- Every scale origin of `getScaleOriginPoint` is the bounds center plus a
fixed sign pattern times the half-dimensions, uniformly in the bounds. -/
lemma scaleOrigin_decomp (handle : String) :
    ∃ kx ky : ℚ, ∀ b : Bounds,
      getScaleOriginPoint handle b
        = Vec.add (boundsCenter b) ⟨kx * b.width, ky * b.height⟩ := by
  by_cases h1 : handle = "nw"
  · exact ⟨1/2, 1/2, fun b => by
      simp only [getScaleOriginPoint, h1, if_pos]
      apply Vec.ext <;> simp [boundsCenter, Vec.add] <;> ring⟩
  by_cases h2 : handle = "ne"
  · exact ⟨-(1/2), 1/2, fun b => by
      simp only [getScaleOriginPoint, h1, h2, if_neg, if_pos]
      apply Vec.ext <;> simp [boundsCenter, Vec.add] <;> ring⟩
  by_cases h3 : handle = "sw"
  · exact ⟨1/2, -(1/2), fun b => by
      simp only [getScaleOriginPoint, h1, h2, h3, if_neg, if_pos]
      apply Vec.ext <;> simp [boundsCenter, Vec.add] <;> ring⟩
  by_cases h4 : handle = "se"
  · exact ⟨-(1/2), -(1/2), fun b => by
      simp only [getScaleOriginPoint, h1, h2, h3, h4, if_neg, if_pos]
      apply Vec.ext <;> simp [boundsCenter, Vec.add] <;> ring⟩
  by_cases h5 : handle = "n"
  · exact ⟨0, 1/2, fun b => by
      simp only [getScaleOriginPoint, h1, h2, h3, h4, h5, if_neg, if_pos]
      apply Vec.ext <;> simp [boundsCenter, Vec.add] <;> ring⟩
  by_cases h6 : handle = "s"
  · exact ⟨0, -(1/2), fun b => by
      simp only [getScaleOriginPoint, h1, h2, h3, h4, h5, h6, if_neg, if_pos]
      apply Vec.ext <;> simp [boundsCenter, Vec.add] <;> ring⟩
  by_cases h7 : handle = "w"
  · exact ⟨1/2, 0, fun b => by
      simp only [getScaleOriginPoint, h1, h2, h3, h4, h5, h6, h7, if_neg, if_pos]
      apply Vec.ext <;> simp [boundsCenter, Vec.add] <;> ring⟩
  by_cases h8 : handle = "e"
  · exact ⟨-(1/2), 0, fun b => by
      simp only [getScaleOriginPoint, h1, h2, h3, h4, h5, h6, h7, h8, if_neg,
        if_pos]
      apply Vec.ext <;> simp [boundsCenter, Vec.add] <;> ring⟩
  · exact ⟨0, 0, fun b => by
      simp only [getScaleOriginPoint, h1, h2, h3, h4, h5, h6, h7, h8, if_neg]
      apply Vec.ext <;> simp [boundsCenter, Vec.add] <;> ring⟩

/-- The JavaScript remainder lands in `[0, m)` for a non-negative dividend
and positive modulus. -/
lemma jsRem_mem_Ico (v m : ℚ) (hm : 0 < m) (hv : 0 ≤ v) :
    jsRem v m ∈ Set.Ico 0 m := by
  have hq : (0 : ℚ) ≤ v / m := div_nonneg hv hm.le
  have hrw : jsRem v m = m * Int.fract (v / m) := by
    rw [jsRem, jsTrunc, if_pos hq, Int.fract]
    field_simp
  constructor
  · rw [hrw]; exact mul_nonneg hm.le (Int.fract_nonneg _)
  · rw [hrw]
    calc m * Int.fract (v / m) < m * 1 :=
          (mul_lt_mul_left hm).mpr (Int.fract_lt_one _)
      _ = m := mul_one m

/-- The JavaScript remainder lands in `(-m, 0]` for a negative dividend and
positive modulus. -/
lemma jsRem_neg_bounds (v m : ℚ) (hm : 0 < m) (hv : v < 0) :
    -m < jsRem v m ∧ jsRem v m ≤ 0 := by
  have hq : ¬((0 : ℚ) ≤ v / m) := by
    rw [not_le]
    exact div_neg_of_neg_of_pos hv hm
  have hle := Int.le_ceil (v / m)
  have hlt := Int.ceil_lt_add_one (v / m)
  have hrw : jsRem v m = -(m * ((⌈v / m⌉ : ℚ) - v / m)) := by
    rw [jsRem, jsTrunc, if_neg hq]
    field_simp
    ring
  constructor
  · rw [hrw]
    have : m * ((⌈v / m⌉ : ℚ) - v / m) < m * 1 := by
      apply (mul_lt_mul_left hm).mpr
      linarith
    linarith
  · rw [hrw]
    have : 0 ≤ m * ((⌈v / m⌉ : ℚ) - v / m) := by
      apply mul_nonneg hm.le
      linarith
    linarith

/-- `((v % 360) + 360) % 360` lands in `[0, 360)` for every rational `v`. -/
lemma norm360_mem (v : ℚ) : norm360 v ∈ Set.Ico (0 : ℚ) 360 := by
  have h360 : (0 : ℚ) < 360 := by norm_num
  rcases le_or_lt 0 (jsRem v 360 + 360) with h | h
  · exact jsRem_mem_Ico _ _ h360 h
  · rcases lt_or_le v 0 with hv | hv
    · have := jsRem_neg_bounds v 360 h360 hv
      linarith
    · have := jsRem_mem_Ico v 360 h360 hv
      simp only [Set.mem_Ico] at this
      linarith

end FigmaDeck

namespace FigmaDeck

/-- C1 (amended): for every handle, every bounds, every rotation (a unit
cosine/sine pair) and all POSITIVE scale factors, the world position of the
scale origin — the bounds corner or edge-midpoint opposite the dragged
handle, rotated about the object's center by the object's rotation — is
identical before and after the bounds update computed by
`applyScaleToObject`: the anchor point does not drift. (The original claim,
which also admitted negative clamp-surviving scale factors, fails: see the
counterexample theorem, where a drag past the anchor flips the rectangle and
moves the recomputed opposite corner.) -/
theorem claim1_anchor_preservation (handle : String) (b : Bounds)
    (rot : Angle) (sx sy : ℚ) (hu : rot.c ^ 2 + rot.s ^ 2 = 1)
    (hsx : 0 < sx) (hsy : 0 < sy) :
    Vec.rotWith
      (getScaleOriginPoint handle
        (applyScaleToObject b sx sy
          (Vec.rotWith (getScaleOriginPoint handle b) (boundsCenter b) rot) rot))
      (boundsCenter
        (applyScaleToObject b sx sy
          (Vec.rotWith (getScaleOriginPoint handle b) (boundsCenter b) rot) rot))
      rot
    = Vec.rotWith (getScaleOriginPoint handle b) (boundsCenter b) rot := by
  obtain ⟨kx, ky, hσ⟩ := scaleOrigin_decomp handle
  have hx : |sx| = sx := abs_of_pos hsx
  have hy : |sy| = sy := abs_of_pos hsy
  simp only [hσ, applyScaleToObject, boundsCenter, Vec.rotWith, Vec.rot,
    Vec.add, Vec.sub, Angle.neg, hx, hy]
  apply Vec.ext <;> simp only []
  · linear_combination
      (-(rot.c * (sx * (kx * b.width)) - rot.s * (sy * (ky * b.height)))) * hu
  · linear_combination
      (-(rot.s * (sx * (kx * b.width)) + rot.c * (sy * (ky * b.height)))) * hu

/-- Witness for C1: the amended theorem at handle `se`, bounds
`(0,0,10,10)`, a 90° rotation and scale factors `2`, `3`. -/
theorem claim1_witness :
    ((0 : ℚ) ^ 2 + 1 ^ 2 = 1) ∧ ((0 : ℚ) < 2) ∧ ((0 : ℚ) < 3) ∧
    Vec.rotWith
      (getScaleOriginPoint "se"
        (applyScaleToObject ⟨0, 0, 10, 10⟩ 2 3
          (Vec.rotWith (getScaleOriginPoint "se" ⟨0, 0, 10, 10⟩)
            (boundsCenter ⟨0, 0, 10, 10⟩) ⟨0, 1⟩) ⟨0, 1⟩))
      (boundsCenter
        (applyScaleToObject ⟨0, 0, 10, 10⟩ 2 3
          (Vec.rotWith (getScaleOriginPoint "se" ⟨0, 0, 10, 10⟩)
            (boundsCenter ⟨0, 0, 10, 10⟩) ⟨0, 1⟩) ⟨0, 1⟩))
      ⟨0, 1⟩
    = Vec.rotWith (getScaleOriginPoint "se" ⟨0, 0, 10, 10⟩)
        (boundsCenter ⟨0, 0, 10, 10⟩) ⟨0, 1⟩ :=
  ⟨by norm_num, by norm_num, by norm_num,
    claim1_anchor_preservation "se" ⟨0, 0, 10, 10⟩ ⟨0, 1⟩ 2 3 (by norm_num)
      (by norm_num) (by norm_num)⟩

/-- Counterexample for C1 as stated: dragging handle `se` of the unrotated
object `(0,0,10,10)` from start point `(10,10)` to `(-10,5)` yields the
clamp-admitted scale factors `-1` and `1/2`; the full resize branch emits
bounds `(-10,0,10,5)`, whose `se` scale origin sits at world `(-10,0)`,
while the original `se` scale origin sat at world `(0,0)`: the anchor
drifted. -/
theorem claim1_counterexample :
    resizeRA "se" ⟨0, 0, 10, 10⟩ ⟨1, 0⟩ (-10) 5 10 10 false (1/100) (1/100)
      = ⟨-10, 0, 10, 5⟩ ∧
    Vec.rotWith (getScaleOriginPoint "se" ⟨-10, 0, 10, 5⟩)
      (boundsCenter ⟨-10, 0, 10, 5⟩) ⟨1, 0⟩ = ⟨-10, 0⟩ ∧
    Vec.rotWith (getScaleOriginPoint "se" ⟨0, 0, 10, 10⟩)
      (boundsCenter ⟨0, 0, 10, 10⟩) ⟨1, 0⟩ = ⟨0, 0⟩ ∧
    ((⟨-10, 0⟩ : Vec) ≠ ⟨0, 0⟩) := by
  refine ⟨?_, ?_, ?_, by simp⟩
  · simp [resizeRA, rawScale, getScaleOriginPoint, applyScaleToObject,
      Vec.rotWith, Vec.rot, Vec.add, Vec.sub, Angle.neg]
    norm_num [abs_of_pos, abs_of_nonneg, abs_of_neg, abs_of_nonpos]
  · simp [getScaleOriginPoint, boundsCenter, Vec.rotWith, Vec.rot, Vec.add,
      Vec.sub]
    try norm_num
  · simp [getScaleOriginPoint, boundsCenter, Vec.rotWith, Vec.rot, Vec.add,
      Vec.sub]
    try norm_num

/-- C2 (confirmed): a resize session on handle `se` of the object
`(0,0,10,10)` with rotation 0, drag-start at world `(10,10)` and one
drag-update at world `(20,15)`, emits exactly the bounds changes
`{x:0, y:0, width:20, height:15}` — the `nw` origin corner stays fixed — in
both the axis-aligned hook (`src/lib/hooks/useTransformationFrames.ts`) and
the rotation-aware hook revision (part_002). -/
theorem claim2_se_drag_scenario :
    dragChangesAA (fun _ _ => 0)
      ⟨10, 10, "resize", some "se", none, some 1, some ⟨0, 0, 10, 10⟩⟩
      ⟨"obj1", 0, 0, 10, 10, ⟨1, 0⟩, true⟩ 20 15 false ⟨true, 1/100, 1/100, 15⟩
      = some ⟨some 0, some 0, some 20, some 15, none⟩ ∧
    dragChangesRA (fun _ _ => 0)
      ⟨10, 10, "resize", some "se", none, some 1, some ⟨0, 0, 10, 10⟩⟩
      ⟨"obj1", 0, 0, 10, 10, ⟨1, 0⟩, true⟩ 20 15 false ⟨true, 1/100, 1/100, 15⟩
      = some ⟨some 0, some 0, some 20, some 15, none⟩ := by
  constructor
  · have h1 : strHas "se" 'n' = false := by decide
    have h2 : strHas "se" 's' = true := by decide
    have h3 : strHas "se" 'w' = false := by decide
    have h4 : strHas "se" 'e' = true := by decide
    simp [dragChangesAA, resizeAA, LayerObject.bounds, h1, h2, h3, h4]
    norm_num [abs_of_pos, abs_of_nonneg]
  · simp [dragChangesRA, resizeRA, rawScale, getScaleOriginPoint,
      applyScaleToObject, Vec.rotWith, Vec.rot, Vec.add, Vec.sub, Angle.neg,
      LayerObject.bounds]
    norm_num [abs_of_pos, abs_of_nonneg]

end FigmaDeck

namespace FigmaDeck

/-- C3 (confirmed): for every Rotate session — any session start rotation,
any `atan2` angles (hence any drag-update pointer position), with or without
the shift snap modifier — the rotation value emitted by the drag-update lies
in `[0, 360)`, provided the configured snap step is positive (the default is
15). The second conjunct ties the emitted `rotation` field of the rotate
branch of `handleDrag` to `rotateNewRotation`, for every `atan2`
realization. -/
theorem claim3_rotation_range :
    (∀ (startRot currentAngle startAngle : ℚ) (shift : Bool) (snap : ℚ),
      0 < snap →
      rotateNewRotation startRot currentAngle startAngle shift snap
        ∈ Set.Ico (0 : ℚ) 360) ∧
    (∀ (atn : ℚ → ℚ → ℚ) (sX sY : ℚ) (h : Option String) (sr asp : Option ℚ)
       (ob : Option Bounds) (tgt : LayerObject) (cx cy : ℚ) (shift : Bool)
       (cfg : HookConfig),
      dragChangesAA atn ⟨sX, sY, "rotate", h, sr, asp, ob⟩ tgt cx cy shift cfg
        = some ⟨none, none, none, none,
            some (rotateNewRotation (sr.getD 0)
              (atn (cy - (tgt.y + tgt.height / 2)) (cx - (tgt.x + tgt.width / 2)))
              (atn (sY - (tgt.y + tgt.height / 2)) (sX - (tgt.x + tgt.width / 2)))
              shift cfg.snapRotation)⟩) := by
  constructor
  · intro startRot currentAngle startAngle shift snap hsnap
    unfold rotateNewRotation
    have hr := norm360_mem (startRot + normAngleDiff (currentAngle - startAngle) * 180)
    simp only [Set.mem_Ico] at hr
    cases shift with
    | false => simpa using hr
    | true =>
        simp only [if_true]
        set r := norm360
          (startRot + normAngleDiff (currentAngle - startAngle) * 180) with hrdef
        have hr2 : (0 : ℚ) ≤ (jsRound (r / snap) : ℚ) * snap := by
          apply mul_nonneg _ hsnap.le
          have hz : (0 : ℤ) ≤ jsRound (r / snap) := by
            rw [jsRound, Int.le_floor]
            push_cast
            have : 0 ≤ r / snap := div_nonneg hr.1 hsnap.le
            linarith
          exact_mod_cast hz
        by_cases h360 : (360 : ℚ) ≤ (jsRound (r / snap) : ℚ) * snap
        · rw [if_pos h360]
          constructor <;> norm_num
        · rw [if_neg h360]
          exact ⟨hr2, lt_of_not_le h360⟩
  · intro atn sX sY h sr asp ob tgt cx cy shift cfg
    simp [dragChangesAA]

/-- Witness for C3: a shift-snapped rotate update with start rotation 350 and
the default snap step 15 lands in `[0, 360)`. -/
theorem claim3_witness :
    (0 : ℚ) < 15 ∧
    rotateNewRotation 350 (9/10) (-(9/10)) true 15 ∈ Set.Ico (0 : ℚ) 360 :=
  ⟨by norm_num, claim3_rotation_range.1 350 (9/10) (-(9/10)) true 15 (by norm_num)⟩

/-- C4 (amended): for session start and current pointer angles in the
`atan2` codomain `(-π, π]` (here `(-1, 1]` in half-turn units), the
loop-normalized delta lies in the CLOSED interval `[-π, π]` and differs from
the raw delta by an integer multiple of `2π`; in particular the wrap-crossing
drag from 170° to −170° yields `+20°` (`20/180` half-turns), not a ~340°
jump. (The original claim's half-open interval `(-π, π]` fails: the boundary
delta `-π` is left at `-π`; see the counterexample theorem.) -/
theorem claim4_delta_normalization (s c : ℚ) (hs : s ∈ Set.Ioc (-1 : ℚ) 1)
    (hc : c ∈ Set.Ioc (-1 : ℚ) 1) :
    (normAngleDiff (c - s) ∈ Set.Icc (-1 : ℚ) 1 ∧
      ∃ k : ℤ, normAngleDiff (c - s) = (c - s) + 2 * k) ∧
    normAngleDiff ((-170 / 180 : ℚ) - 170 / 180) = 20 / 180 := by
  obtain ⟨hs1, hs2⟩ := hs
  obtain ⟨hc1, hc2⟩ := hc
  constructor
  · rw [normAngleDiff]
    by_cases hd : 1 < c - s
    · rw [wrapDown, dif_pos hd, wrapDown, dif_neg (by linarith), wrapUp,
        dif_neg (by linarith)]
      exact ⟨⟨by linarith, by linarith⟩, ⟨-1, by push_cast; ring⟩⟩
    · rw [wrapDown, dif_neg hd]
      by_cases hd2 : c - s < -1
      · rw [wrapUp, dif_pos hd2, wrapUp, dif_neg (by linarith)]
        exact ⟨⟨by linarith, by linarith⟩, ⟨1, by push_cast; ring⟩⟩
      · rw [wrapUp, dif_neg hd2]
        exact ⟨⟨by linarith, by linarith⟩, ⟨0, by push_cast; ring⟩⟩
  · rw [normAngleDiff, wrapDown, wrapUp, wrapUp]
    norm_num

/-- Witness for C4: the amended theorem at start angle 170° (`17/18`
half-turns) and current angle −170°. -/
theorem claim4_witness :
    (17/18 : ℚ) ∈ Set.Ioc (-1 : ℚ) 1 ∧ (-(17/18) : ℚ) ∈ Set.Ioc (-1 : ℚ) 1 ∧
    ((normAngleDiff ((-(17/18) : ℚ) - 17/18) ∈ Set.Icc (-1 : ℚ) 1 ∧
        ∃ k : ℤ, normAngleDiff ((-(17/18) : ℚ) - 17/18) = ((-(17/18) : ℚ) - 17/18) + 2 * k) ∧
      normAngleDiff ((-170 / 180 : ℚ) - 170 / 180) = 20 / 180) :=
  ⟨by norm_num, by norm_num,
    claim4_delta_normalization (17/18) (-(17/18)) (by norm_num) (by norm_num)⟩

/-- Counterexample for C4 as stated: the start angle `π` (pointer due west
of the center) and current angle `0` (due east) are both in the `atan2`
codomain, but the normalized delta is `-π` itself, which is NOT in the
claimed half-open interval `(-π, π]` (half-turn units: `-1 ∉ (-1, 1]`). -/
theorem claim4_counterexample :
    (0 : ℚ) ∈ Set.Ioc (-1 : ℚ) 1 ∧ (1 : ℚ) ∈ Set.Ioc (-1 : ℚ) 1 ∧
    normAngleDiff ((0 : ℚ) - 1) = -1 ∧
    normAngleDiff ((0 : ℚ) - 1) ∉ Set.Ioc (-1 : ℚ) 1 := by
  rw [normAngleDiff, wrapDown, wrapUp]
  norm_num

end FigmaDeck

namespace FigmaDeck

/-- Helper for C5: the corner-first scan returns a Resize zone at one of the
four corner names whenever some corner is within the 12px tolerance, and the
returned handle is decided by the fixed scan order `nw, ne, se, sw`. -/
lemma hoverScan_resize_of_corner (tl tr br bl m : Vec)
    (h : distSq m tl ≤ 144 ∨ distSq m tr ≤ 144 ∨ distSq m br ≤ 144 ∨
      distSq m bl ≤ 144) :
    ∃ name, name ∈ (["nw", "ne", "se", "sw"] : List String) ∧
      hoverScan tl tr br bl m = some ⟨"resize", name, "resize"⟩ := by
  by_cases h0 : distSq m tl ≤ 144
  · refine ⟨"nw", by simp, ?_⟩
    unfold hoverScan
    rw [if_pos h0]
  by_cases h1 : distSq m tr ≤ 144
  · refine ⟨"ne", by simp, ?_⟩
    unfold hoverScan
    rw [if_neg h0, if_pos h1]
  by_cases h2 : distSq m br ≤ 144
  · refine ⟨"se", by simp, ?_⟩
    unfold hoverScan
    rw [if_neg h0, if_neg h1, if_pos h2]
  by_cases h3 : distSq m bl ≤ 144
  · refine ⟨"sw", by simp, ?_⟩
    unfold hoverScan
    rw [if_neg h0, if_neg h1, if_neg h2, if_pos h3]
  · tauto

/-- Helper for C5: with a canvas bound and the layer selected, the
classifier is exactly the scan applied to the four projected rotated corners
and the projected mouse position. -/
lemma getHoverZone_some_canvas (layer : LayerObject) (vs : ViewState)
    (cw chh qx qy : ℚ) (hsel : layer.selected = true) :
    getHoverZone layer qx qy vs (some (cw, chh))
      = hoverScan
          (projPoint vs cw chh (rotAround ⟨layer.x, layer.y⟩
            ⟨layer.x + layer.width / 2, layer.y + layer.height / 2⟩ layer.rotation))
          (projPoint vs cw chh (rotAround ⟨layer.x + layer.width, layer.y⟩
            ⟨layer.x + layer.width / 2, layer.y + layer.height / 2⟩ layer.rotation))
          (projPoint vs cw chh (rotAround ⟨layer.x + layer.width, layer.y + layer.height⟩
            ⟨layer.x + layer.width / 2, layer.y + layer.height / 2⟩ layer.rotation))
          (projPoint vs cw chh (rotAround ⟨layer.x, layer.y + layer.height⟩
            ⟨layer.x + layer.width / 2, layer.y + layer.height / 2⟩ layer.rotation))
          (projPoint vs cw chh ⟨qx, qy⟩) := by
  have hw2s : ∀ p : Vec,
      worldToScreen p vs (some (cw, chh)) = some (projPoint vs cw chh p) :=
    fun p => rfl
  simp only [getHoverZone, hsel, Bool.not_true, Bool.false_eq_true, if_false,
    getRotatedPolygon, List.map_cons, List.map_nil, hw2s,
    List.filterMap_cons, List.filterMap_nil]

/-- C5 (amended): for every selected object, every rotation, and every query
point whose screen-space distance to SOME projected corner is within the
12-pixel resize tolerance, `getHoverZone` returns a Resize zone whose handle
is one of the four corner names (decided by the fixed scan order
`nw, ne, se, sw`), and never a Rotate zone; corners are tested before edges
and before the rotate band. (The original claim's "a Resize zone for THAT
corner" fails when two projected corners are both within tolerance: the scan
returns the first match, see the counterexample theorem.) -/
theorem claim5_corner_resize_priority (layer : LayerObject) (vs : ViewState)
    (cw chh qx qy : ℚ) (hsel : layer.selected = true)
    (hnear : ∃ sp ∈ (getRotatedPolygon layer).map (projPoint vs cw chh),
        distSq (projPoint vs cw chh ⟨qx, qy⟩) sp ≤ 144) :
    ∃ name, name ∈ (["nw", "ne", "se", "sw"] : List String) ∧
      getHoverZone layer qx qy vs (some (cw, chh))
        = some ⟨"resize", name, "resize"⟩ := by
  rw [getHoverZone_some_canvas layer vs cw chh qx qy hsel]
  apply hoverScan_resize_of_corner
  simp only [getRotatedPolygon, List.map_cons, List.map_nil, List.mem_cons,
    List.not_mem_nil, or_false] at hnear
  obtain ⟨sp, hmem, hd⟩ := hnear
  rcases hmem with h | h | h | h <;> rw [h] at hd <;> tauto

/-- Witness for C5: a selected unit square at the origin, zoom 8, canvas
800×600, query at the world origin (which projects onto the first corner). -/
theorem claim5_witness :
    (⟨"a", 0, 0, 1, 1, ⟨1, 0⟩, true⟩ : LayerObject).selected = true ∧
    (∃ sp ∈ (getRotatedPolygon ⟨"a", 0, 0, 1, 1, ⟨1, 0⟩, true⟩).map
        (projPoint ⟨0, 0, 8⟩ 800 600),
      distSq (projPoint ⟨0, 0, 8⟩ 800 600 ⟨0, 0⟩) sp ≤ 144) ∧
    (∃ name, name ∈ (["nw", "ne", "se", "sw"] : List String) ∧
      getHoverZone ⟨"a", 0, 0, 1, 1, ⟨1, 0⟩, true⟩ 0 0 ⟨0, 0, 8⟩
        (some (800, 600)) = some ⟨"resize", name, "resize"⟩) := by
  have hnear : ∃ sp ∈ (getRotatedPolygon ⟨"a", 0, 0, 1, 1, ⟨1, 0⟩, true⟩).map
      (projPoint ⟨0, 0, 8⟩ 800 600),
      distSq (projPoint ⟨0, 0, 8⟩ 800 600 ⟨0, 0⟩) sp ≤ 144 := by
    refine ⟨projPoint ⟨0, 0, 8⟩ 800 600
      (rotAround ⟨0, 0⟩ ⟨0 + 1 / 2, 0 + 1 / 2⟩ ⟨1, 0⟩), ?_, ?_⟩
    · simp [getRotatedPolygon]
    · norm_num [projPoint, rotAround, distSq, deckScale]
  exact ⟨rfl, hnear,
    claim5_corner_resize_priority ⟨"a", 0, 0, 1, 1, ⟨1, 0⟩, true⟩ ⟨0, 0, 8⟩
      800 600 0 0 rfl hnear⟩

/-- Counterexample for C5 as stated: for a selected 0.001×0.001 object at
zoom 8 all four projected corners are within 12px of each other; querying
exactly at the `se` corner (world `(1/1000, 1/1000)`, within tolerance of
the projected `se` corner) classifies as Resize with handle `nw` — the first
corner in scan order — not `se`. -/
theorem claim5_counterexample :
    distSq (projPoint ⟨0, 0, 8⟩ 800 600 ⟨1/1000, 1/1000⟩)
      (projPoint ⟨0, 0, 8⟩ 800 600
        (rotAround ⟨1/1000, 1/1000⟩ ⟨1/2000, 1/2000⟩ ⟨1, 0⟩)) ≤ 144 ∧
    getHoverZone ⟨"a", 0, 0, 1/1000, 1/1000, ⟨1, 0⟩, true⟩ (1/1000) (1/1000)
      ⟨0, 0, 8⟩ (some (800, 600)) = some ⟨"resize", "nw", "resize"⟩ ∧
    "nw" ≠ "se" := by
  refine ⟨by norm_num [projPoint, rotAround, distSq, deckScale], ?_, by decide⟩
  simp [getHoverZone, getRotatedPolygon, rotAround, worldToScreen, deckScale,
    hoverScan, distSq, distToSegSq]
  norm_num

end FigmaDeck

namespace FigmaDeck

/-- C6 (confirmed): the per-axis scale factor of the rotation-aware resize
branch is the ratio of the local current-pointer component to the local
start-pointer component, substituted with `1` exactly when the start
component is zero (first conjunct; over `ℚ` the source's follow-up
`Number.isFinite` re-check is vacuous, and no exception or non-finite value
can flow into the emitted bounds — every embedded function is total).
Second conjunct: in the fully degenerate session whose start pointer
coincides with the world scale origin (both local start components zero),
both factors become `1` and the emitted bounds are exactly the original
bounds, for every handle, rotation and current pointer. -/
theorem claim6_scale_guard :
    (∀ cur sta : ℚ,
      (sta = 0 → rawScale cur sta = 1) ∧ (sta ≠ 0 → rawScale cur sta = cur / sta)) ∧
    (∀ (handle : String) (orig : Bounds) (rot : Angle) (cx cy minW minH : ℚ),
      rot.c ^ 2 + rot.s ^ 2 = 1 → 0 < orig.width → 0 < orig.height →
      minW ≤ orig.width → minH ≤ orig.height →
      resizeRA handle orig rot cx cy
        (Vec.rotWith (getScaleOriginPoint handle orig)
          ⟨orig.x + orig.width / 2, orig.y + orig.height / 2⟩ rot).x
        (Vec.rotWith (getScaleOriginPoint handle orig)
          ⟨orig.x + orig.width / 2, orig.y + orig.height / 2⟩ rot).y
        false minW minH = orig) := by
  constructor
  · intro cur sta
    constructor
    · intro h
      rw [h, rawScale_zero]
    · intro h
      rw [rawScale, if_pos h]
  · intro handle orig rot cx cy minW minH hu hw hh hmw hmh
    have h1 : ¬((1 : ℚ) < minW / orig.width) := by
      rw [not_lt, div_le_one hw]; exact hmw
    have h2 : ¬((1 : ℚ) < minH / orig.height) := by
      rw [not_lt, div_le_one hh]; exact hmh
    unfold resizeRA
    simp only [vec_eta, vec_sub_self, vec_zero_rot, rawScale_zero, ite_self,
      Bool.false_eq_true, if_false, abs_one]
    rw [if_neg h1, if_neg h2]
    simp only [applyScaleToObject, mul_one, abs_one, vec_eta,
      rot_neg_rot rot hu]
    apply Bounds.ext <;> simp only [Vec.add, Vec.sub] <;> ring

/-- Witness for C6: both conjuncts instantiated — the guard at a concrete
zero and non-zero start component, and the degenerate session on handle `nw`
of the 90°-rotated bounds `(0,0,10,10)` (scale origin world `(0,10)`). -/
theorem claim6_witness :
    (((0 : ℚ) = 0 → rawScale 7 0 = 1) ∧ ((0 : ℚ) ≠ 0 → rawScale 7 0 = 7 / 0)) ∧
    (((0 : ℚ) ^ 2 + 1 ^ 2 = 1) ∧ (0 : ℚ) < 10 ∧ (1/100 : ℚ) ≤ 10 ∧
      resizeRA "nw" ⟨0, 0, 10, 10⟩ ⟨0, 1⟩ 3 4
        (Vec.rotWith (getScaleOriginPoint "nw" ⟨0, 0, 10, 10⟩)
          ⟨(0 : ℚ) + 10 / 2, (0 : ℚ) + 10 / 2⟩ ⟨0, 1⟩).x
        (Vec.rotWith (getScaleOriginPoint "nw" ⟨0, 0, 10, 10⟩)
          ⟨(0 : ℚ) + 10 / 2, (0 : ℚ) + 10 / 2⟩ ⟨0, 1⟩).y
        false (1/100) (1/100) = ⟨0, 0, 10, 10⟩) :=
  ⟨claim6_scale_guard.1 7 0,
    ⟨by norm_num, by norm_num, by norm_num,
      claim6_scale_guard.2 "nw" ⟨0, 0, 10, 10⟩ ⟨0, 1⟩ 3 4 (1/100) (1/100)
        (by norm_num) (by norm_num) (by norm_num) (by norm_num) (by norm_num)⟩⟩

/-- C7 (confirmed): zone classification returns `none` without throwing
whenever (a) the object's `selected` flag is false — for every object
geometry, view state, canvas and query point; (b) no canvas element is
bound, so world-to-screen projection is unavailable; (c) resize and rotate
are both disabled by config. (a) and (b) are proved for both classifiers —
the hardcoded-tolerance `src/utils/hoverDetection.ts` one and the
config-aware library one staged in `src/lib/utils/cursor.ts` — and (c) for
the config-aware one, for every setting of the tolerance fields. Totality of
the embedded functions shows the no-exception part. -/
theorem claim7_fail_closed :
    (∀ (idv : String) (x y w h : ℚ) (rot : Angle) (vs : ViewState)
       (canvas : Option (ℚ × ℚ)) (qx qy : ℚ),
      getHoverZone ⟨idv, x, y, w, h, rot, false⟩ qx qy vs canvas = none) ∧
    (∀ (layer : LayerObject) (vs : ViewState) (qx qy : ℚ),
      getHoverZone layer qx qy vs none = none) ∧
    (∀ (idv : String) (x y w h : ℚ) (rot : Angle) (vs : ViewState)
       (canvas : Option (ℚ × ℚ)) (qx qy : ℚ) (cfg : GenConfig),
      getHoverZoneLib ⟨idv, x, y, w, h, rot, false⟩ qx qy vs canvas cfg = none) ∧
    (∀ (layer : LayerObject) (vs : ViewState) (qx qy : ℚ) (cfg : GenConfig),
      getHoverZoneLib layer qx qy vs none cfg = none) ∧
    (∀ (layer : LayerObject) (vs : ViewState) (canvas : Option (ℚ × ℚ))
       (qx qy rdv rotv : ℚ),
      getHoverZoneLib layer qx qy vs canvas
        ⟨some rdv, some rotv, some false, some false⟩ = none) := by
  refine ⟨?_, ?_, ?_, ?_, ?_⟩
  · intro idv x y w h rot vs canvas qx qy
    simp [getHoverZone]
  · intro layer vs qx qy
    rcases layer with ⟨idv, x, y, w, h, rot, sel⟩
    cases sel <;> simp [getHoverZone, worldToScreen, getRotatedPolygon]
  · intro idv x y w h rot vs canvas qx qy cfg
    simp [getHoverZoneLib]
  · intro layer vs qx qy cfg
    rcases layer with ⟨idv, x, y, w, h, rot, sel⟩
    cases sel <;> simp [getHoverZoneLib, worldToScreen, getRotatedPolygon]
  · intro layer vs canvas qx qy rdv rotv
    rcases layer with ⟨idv, x, y, w, h, rot, sel⟩
    rcases canvas with _ | ⟨cw, chh⟩ <;> cases sel <;>
      simp [getHoverZoneLib, worldToScreen, getRotatedPolygon]

end FigmaDeck

namespace FigmaDeck

/-- C8 (code bug in `src/utils/hoverDetection.ts`): for the selected
unrotated unit square at the origin (zoom 8, canvas 800×600), the world
corner `(0,1)` is the VISUAL top-left on screen — its projection has
strictly smaller screen `y` than the bottom corners and strictly smaller
screen `x` than the right corners — yet `getHoverZone` of
`src/utils/hoverDetection.ts` classifies a pointer there as handle `sw`,
while the demo classifier revision (part_001 / `ResizableLayerDemo.tsx`,
whose flipped table the project notes in part_000 prescribe) returns the
visually correct `nw`. -/
theorem claim8_visual_handle_names :
    getHoverZone ⟨"a", 0, 0, 1, 1, ⟨1, 0⟩, true⟩ 0 1 ⟨0, 0, 8⟩ (some (800, 600))
      = some ⟨"resize", "sw", "resize"⟩ ∧
    getHoverZoneDemo ⟨"a", 0, 0, 1, 1, ⟨1, 0⟩, true⟩ 0 1 ⟨0, 0, 8⟩
      (some (800, 600)) = some ⟨"resize", "nw", "resize"⟩ ∧
    (projPoint ⟨0, 0, 8⟩ 800 600 ⟨0, 1⟩).y < (projPoint ⟨0, 0, 8⟩ 800 600 ⟨0, 0⟩).y ∧
    (projPoint ⟨0, 0, 8⟩ 800 600 ⟨0, 1⟩).y < (projPoint ⟨0, 0, 8⟩ 800 600 ⟨1, 0⟩).y ∧
    (projPoint ⟨0, 0, 8⟩ 800 600 ⟨0, 1⟩).x < (projPoint ⟨0, 0, 8⟩ 800 600 ⟨1, 1⟩).x ∧
    (projPoint ⟨0, 0, 8⟩ 800 600 ⟨0, 1⟩).x < (projPoint ⟨0, 0, 8⟩ 800 600 ⟨1, 0⟩).x ∧
    "sw" ≠ "nw" := by
  refine ⟨?_, ?_, ?_, ?_, ?_, ?_, by decide⟩
  · simp [getHoverZone, getRotatedPolygon, rotAround, worldToScreen, deckScale,
      hoverScan, distSq, distToSegSq]
    norm_num
  · simp [getHoverZoneDemo, getRotatedPolygon, rotAround, worldToScreen,
      deckScale, hoverScanDemo, distSq, distToSegSq]
    norm_num
  all_goals norm_num [projPoint, deckScale]

/-- C9 (amended): for the checked-in library generator
(`src/lib/utils/dataGeneration.ts`), the debug resize-zone and rotate-zone
polygons of every selected object are the rotated rectangle expanded on each
side by the configured pixel tolerance divided by `2^(zoom-8) * 400` — the
exact scale factor `worldToScreen` multiplies world displacements by (third
conjunct) — so the drawn zones track the pixel-based hit-test region at
every zoom. (The original claim also covered the part_003 revision of the
generator, which instead divides by `2^zoom` and does NOT satisfy the
formula: see the counterexample theorem.) -/
theorem claim9_zone_buffer_formula (obj : LayerObject) (vs : ViewState)
    (cw chh rd rod : ℚ) (hsel : obj.selected = true) (hrd : rd ≠ 0)
    (hrod : rod ≠ 0) :
    (generateResizeZoneData [obj] vs (some (cw, chh)) ⟨some rd, some rod, none, none⟩
      = [⟨specExpandedZonePolygon obj (rd / deckScale vs.zoom), obj.id, "resize"⟩]) ∧
    (generateRotateZoneData [obj] vs (some (cw, chh)) ⟨some rd, some rod, none, none⟩
      = [⟨specExpandedZonePolygon obj (rod / deckScale vs.zoom), obj.id, "rotate"⟩]) ∧
    (∀ p : Vec, worldToScreen p vs (some (cw, chh))
      = some ⟨cw / 2 + (p.x - vs.longitude) * deckScale vs.zoom,
              chh / 2 - (p.y - vs.latitude) * deckScale vs.zoom⟩) := by
  refine ⟨?_, ?_, fun p => rfl⟩ <;>
  · simp only [generateResizeZoneData, generateRotateZoneData, jsOr, hrd, hrod,
      if_false, List.filter, hsel, specExpandedZonePolygon, List.map_cons,
      List.map_nil, rotAround]
    norm_num
    and_intros <;> ring

/-- Witness for C9: the amended theorem at a selected 3×4 object rotated
90°, zoom 10, canvas 800×600, with the hook's default tolerances 6 and 16. -/
theorem claim9_witness :
    (⟨"a", 1, 2, 3, 4, ⟨0, 1⟩, true⟩ : LayerObject).selected = true ∧
    ((6 : ℚ) ≠ 0) ∧ ((16 : ℚ) ≠ 0) ∧
    ((generateResizeZoneData [⟨"a", 1, 2, 3, 4, ⟨0, 1⟩, true⟩] ⟨0, 0, 10⟩
        (some (800, 600)) ⟨some 6, some 16, none, none⟩
      = [⟨specExpandedZonePolygon ⟨"a", 1, 2, 3, 4, ⟨0, 1⟩, true⟩
          (6 / deckScale (10 : ℤ)), "a", "resize"⟩]) ∧
    (generateRotateZoneData [⟨"a", 1, 2, 3, 4, ⟨0, 1⟩, true⟩] ⟨0, 0, 10⟩
        (some (800, 600)) ⟨some 6, some 16, none, none⟩
      = [⟨specExpandedZonePolygon ⟨"a", 1, 2, 3, 4, ⟨0, 1⟩, true⟩
          (16 / deckScale (10 : ℤ)), "a", "rotate"⟩]) ∧
    (∀ p : Vec, worldToScreen p ⟨0, 0, 10⟩ (some (800, 600))
      = some ⟨800 / 2 + (p.x - 0) * deckScale (10 : ℤ),
              600 / 2 - (p.y - 0) * deckScale (10 : ℤ)⟩)) :=
  ⟨rfl, by norm_num, by norm_num,
    claim9_zone_buffer_formula ⟨"a", 1, 2, 3, 4, ⟨0, 1⟩, true⟩ ⟨0, 0, 10⟩
      800 600 6 16 rfl (by norm_num) (by norm_num)⟩

/-- Counterexample for C9 as stated: at zoom 8 the part_003 generator
revision expands by `12 / 2^8 = 3/64` world units, not the
`12 / (2^0 * 400) = 3/100` that the worldToScreen scale formula requires, so
its polygon differs from the claimed one. -/
theorem claim9_counterexample :
    ¬(generateResizeZoneData003 [⟨"a", 0, 0, 10, 10, ⟨1, 0⟩, true⟩] ⟨0, 0, 8⟩
        (some (800, 600)) ⟨none, none, none, none⟩
      = [⟨specExpandedZonePolygon ⟨"a", 0, 0, 10, 10, ⟨1, 0⟩, true⟩
          (12 / deckScale 8), "a", "resize"⟩]) := by
  simp [generateResizeZoneData003, jsOr, specExpandedZonePolygon, rotAround,
    deckScale, List.filter]
  norm_num

/-- C10 (confirmed): for every drag-update, every `atan2` realization, every
target object and configuration, a Move session emits a change set
containing exactly the fields `x` and `y`, and a Rotate session emits
exactly the field `rotation` — `width`, `height` and all other fields are
absent — in both hook revisions. -/
theorem claim10_move_rotate_fields :
    ∀ (atn : ℚ → ℚ → ℚ) (sX sY : ℚ) (h : Option String) (sr asp : Option ℚ)
      (ob : Option Bounds) (tgt : LayerObject) (cx cy : ℚ) (shift : Bool)
      (cfg : HookConfig),
    dragChangesAA atn ⟨sX, sY, "move", h, sr, asp, ob⟩ tgt cx cy shift cfg
      = some ⟨some (tgt.x + (cx - sX)), some (tgt.y + (cy - sY)), none, none, none⟩ ∧
    dragChangesRA atn ⟨sX, sY, "move", h, sr, asp, ob⟩ tgt cx cy shift cfg
      = some ⟨some (tgt.x + (cx - sX)), some (tgt.y + (cy - sY)), none, none, none⟩ ∧
    (∃ r : ℚ,
      dragChangesAA atn ⟨sX, sY, "rotate", h, sr, asp, ob⟩ tgt cx cy shift cfg
        = some ⟨none, none, none, none, some r⟩) ∧
    (∃ r : ℚ,
      dragChangesRA atn ⟨sX, sY, "rotate", h, sr, asp, ob⟩ tgt cx cy shift cfg
        = some ⟨none, none, none, none, some r⟩) := by
  intro atn sX sY h sr asp ob tgt cx cy shift cfg
  refine ⟨by simp [dragChangesAA], by simp [dragChangesRA], ?_, ?_⟩
  · refine ⟨rotateNewRotation (sr.getD 0)
        (atn (cy - (tgt.y + tgt.height / 2)) (cx - (tgt.x + tgt.width / 2)))
        (atn (sY - (tgt.y + tgt.height / 2)) (sX - (tgt.x + tgt.width / 2)))
        shift cfg.snapRotation, ?_⟩
    simp [dragChangesAA]
  · refine ⟨rotateNewRotation (sr.getD 0)
        (atn (cy - (tgt.y + tgt.height / 2)) (cx - (tgt.x + tgt.width / 2)))
        (atn (sY - (tgt.y + tgt.height / 2)) (sX - (tgt.x + tgt.width / 2)))
        shift cfg.snapRotation, ?_⟩
    simp [dragChangesRA]

end FigmaDeck
